import Mathlib

/-!
# Verification of the checkpointed GitHub enrichment pipeline

Shallow embedding of `src/代码/爬取GitHub信息.py`: the resumable, checkpointed
enrichment sweep (Work Source loading, checkpoint resume scan, reference
resolution, four-step metadata fetch, result sink append, checkpoint save,
completion / checkpoint clearing), together with theorems settling the
behavioural claims about it.

Conventions: the JSON field `总序号` is the `id` field, `github链接` is `url`;
remote calls are modelled by an oracle (`FetchOracle`) giving each step's
outcome; the files `crawled_data.jsonl` / `last_processed_id.txt` are the
`log` / `checkpoint` components of `RunState`.
-/

/-- Does the list `needle` occur at the head of `hay`? (prefix test used by
substring containment, modelling Python's `in` operator). -/
def listStarts : List Char → List Char → Bool
  | [], _ => true
  | _ :: _, [] => false
  | n :: ns, h :: hs => n == h && listStarts ns hs

/-- Contiguous-substring containment on character lists: models Python's
`needle in hay` for strings. -/
def listContains (needle : List Char) : List Char → Bool
  | [] => listStarts needle []
  | h :: hs => listStarts needle (h :: hs) || listContains needle hs

/-- Python `s.strip(c)`: remove all leading and trailing occurrences of the
character `c`. -/
def pyStrip (c : Char) (s : List Char) : List Char :=
  ((s.dropWhile (· == c)).reverse.dropWhile (· == c)).reverse

/-- Python `s.split(sep)` with an explicit separator: splits on every
occurrence of `sep`, keeping empty segments; the result is always nonempty. -/
def pySplit (sep : Char) : List Char → List (List Char)
  | [] => [[]]
  | c :: cs =>
    match pySplit sep cs with
    | [] => [[]]
    | w :: ws => if c == sep then [] :: w :: ws else (c :: w) :: ws

/-- A WorkItem: one line of the input dataset.  `id` is the JSON field
`总序号`, `url` is `github链接` (source lines 71-72). -/
structure WorkItem where
  id : Int
  url : String
deriving DecidableEq

/-- Failure kinds of reference resolution (source lines 77-84): the wrong-host
check (`'github.com' not in repo_url`) and the split-arity check
(`len(parts) < 2`). -/
inductive ResolveError where
  | unsupportedReferenceKind
  | malformedReference
deriving DecidableEq

/-- The host substring tested by line 77 of the source. -/
def githubHost : List Char := "github.com".toList

/-- Line 77: `'github.com' in repo_url`. -/
def hostMatches (url : String) : Bool := listContains githubHost url.toList

/-- Line 81: `parts = repo_url.strip('/').split('/')`. -/
def urlParts (url : String) : List (List Char) :=
  pySplit '/' (pyStrip '/' url.toList)

/-- Reference resolution (source lines 77-87): reject non-GitHub references,
then split the stripped URL on `'/'`; fewer than two segments is malformed,
otherwise `owner = parts[-2]`, `repo_name = parts[-1]`. -/
def resolveRef (url : String) : Except ResolveError (String × String) :=
  if hostMatches url then
    match (urlParts url).reverse with
    | nm :: ow :: _ => .ok (String.mk ow, String.mk nm)
    | _ => .error .malformedReference
  else .error .unsupportedReferenceKind

/-- The repository-summary fields read from the repo object at source
lines 114-118. -/
structure Summary where
  stargazers_count : Int
  forks_count : Int
  open_issues_count : Int
  created_at : Option String
  pushed_at : Option String
deriving DecidableEq

/-- Failure classes of a remote call: `GithubException` caught at line 138
(with its `status` and `message`), and the catch-all `Exception` at
line 142. -/
inductive FetchError where
  | githubException (status : Int) (message : String)
  | unknownError (message : String)
deriving DecidableEq

/-- The error strings built at source lines 139 and 143. -/
def errorMessage : FetchError → String
  | .githubException status msg => "GitHub API 错误: " ++ toString status ++ " - " ++ msg
  | .unknownError msg => "未知错误: " ++ msg

deriving instance DecidableEq for Except

/-- Outcomes the external API would give for each of the four fetch steps of
one item (source lines 108-134): repository summary, contributor list,
trailing-30-day commit count, total commit count. -/
structure FetchOracle where
  summary : Except FetchError Summary
  contributors : Except FetchError (List (String × Int))
  recent : Except FetchError Int
  total : Except FetchError Int
deriving DecidableEq

/-- The fixed-schema output record built at source lines 90-104 and filled in
by the fetch steps.  Field names follow the Python dict keys (`总序号` is
`id`, `github链接` is `url`). -/
structure ResultRecord where
  id : Int
  url : String
  owner : String
  repo_name : String
  stargazers_count : Option Int
  forks_count : Option Int
  open_issues_count : Option Int
  created_at : Option String
  pushed_at : Option String
  contributor_list : List (String × Int)
  recent_commits_count : Option Int
  total_commits_count : Option Int
  error : Option String
deriving DecidableEq

/-- The record as initialised at source lines 90-104: identification fields
set, every fetchable field at its default (`None`, and `[]` for
`contributor_list`), `error = None`. -/
def initRecord (id : Int) (url owner repoName : String) : ResultRecord :=
  { id := id, url := url, owner := owner, repo_name := repoName
    stargazers_count := none, forks_count := none, open_issues_count := none
    created_at := none, pushed_at := none, contributor_list := []
    recent_commits_count := none, total_commits_count := none, error := none }

/-- Source lines 114-118: copy the summary fields into the record. -/
def applySummary (r : ResultRecord) (s : Summary) : ResultRecord :=
  { r with stargazers_count := some s.stargazers_count
           forks_count := some s.forks_count
           open_issues_count := some s.open_issues_count
           created_at := s.created_at
           pushed_at := s.pushed_at }

/-- Source line 123: store the contributor list. -/
def applyContributors (r : ResultRecord) (cs : List (String × Int)) : ResultRecord :=
  { r with contributor_list := cs }

/-- Source line 129: store the trailing-30-day commit count. -/
def applyRecent (r : ResultRecord) (n : Int) : ResultRecord :=
  { r with recent_commits_count := some n }

/-- Source line 133: store the total commit count. -/
def applyTotal (r : ResultRecord) (n : Int) : ResultRecord :=
  { r with total_commits_count := some n }

/-- Source lines 138-145: record the caught exception's class and message in
the `error` field. -/
def setError (r : ResultRecord) (e : FetchError) : ResultRecord :=
  { r with error := some (errorMessage e) }

/-- Observable remote activity of the fetch block: the four API calls and the
`time.sleep(1)` pacing pauses (source lines 108-134). -/
inductive FetchEvent where
  | callSummary
  | callContributors
  | callRecentCommits
  | callTotalCommits
  | sleepPause
deriving DecidableEq

/-- The `try` block of source lines 106-145: perform the four steps in order,
with a `time.sleep(1)` after each successful step; the first failure
short-circuits the rest and records the error message.  Returns the final
record together with the trace of remote calls and pauses. -/
def fetchData (o : FetchOracle) (r : ResultRecord) : ResultRecord × List FetchEvent :=
  match o.summary with
  | .error e => (setError r e, [.callSummary])
  | .ok sm =>
    let r1 := applySummary r sm
    match o.contributors with
    | .error e => (setError r1 e, [.callSummary, .sleepPause, .callContributors])
    | .ok cs =>
      let r2 := applyContributors r1 cs
      match o.recent with
      | .error e =>
          (setError r2 e,
           [.callSummary, .sleepPause, .callContributors, .sleepPause, .callRecentCommits])
      | .ok n =>
        let r3 := applyRecent r2 n
        match o.total with
        | .error e =>
            (setError r3 e,
             [.callSummary, .sleepPause, .callContributors, .sleepPause,
              .callRecentCommits, .sleepPause, .callTotalCommits])
        | .ok t =>
            (applyTotal r3 t,
             [.callSummary, .sleepPause, .callContributors, .sleepPause,
              .callRecentCommits, .sleepPause, .callTotalCommits, .sleepPause])

/-- The trace of remote activity of one fetch, independent of the record being
filled. -/
def fetchTrace (o : FetchOracle) : List FetchEvent :=
  (fetchData o (initRecord 0 "" "" "")).2

/-- The first failing step's error, in the fixed step order (none when all
four steps succeed). -/
def firstFetchError (o : FetchOracle) : Option FetchError :=
  match o.summary with
  | .error e => some e
  | .ok _ =>
    match o.contributors with
    | .error e => some e
    | .ok _ =>
      match o.recent with
      | .error e => some e
      | .ok _ =>
        match o.total with
        | .error e => some e
        | .ok _ => none

/-- Is a fetch event a remote API call (as opposed to a pacing pause)? -/
def isCall : FetchEvent → Bool
  | .sleepPause => false
  | _ => true

/-- The fully-filled (or error-annotated) record the fetch block produces for
a resolved item. -/
def recordFor (o : FetchOracle) (it : WorkItem) (ow nm : String) : ResultRecord :=
  (fetchData o (initRecord it.id it.url ow nm)).1

/-- The remote activity one item causes: none at all when resolution fails
(the `continue` at source lines 79 and 84 precedes the `try` block). -/
def itemTrace (o : FetchOracle) (it : WorkItem) : List FetchEvent :=
  match resolveRef it.url with
  | .error _ => []
  | .ok (ow, nm) => (fetchData o (initRecord it.id it.url ow nm)).2

/-- The mutable on-disk/in-memory state the sweep touches: the appended
contents of `crawled_data.jsonl` (`log`), the contents of
`last_processed_id.txt` (`checkpoint`, `none` when the file is absent), and
the in-memory `processed_count`. -/
structure RunState where
  log : List ResultRecord
  checkpoint : Option Int
  processed_count : Nat
deriving DecidableEq

/-- The sequence of intermediate states one loop iteration passes through,
one entry per state change (source lines 147-158): for a resolvable item,
first the append to the output file (lines 150-152), then the checkpoint
overwrite (lines 155-156), then the `processed_count` increment (line 158).
An unresolvable item changes nothing (`continue` at lines 79/84). -/
def itemStates (o : FetchOracle) (it : WorkItem) (s : RunState) : List RunState :=
  match resolveRef it.url with
  | .error _ => []
  | .ok (ow, nm) =>
    let r := recordFor o it ow nm
    [{ s with log := s.log ++ [r] },
     { s with log := s.log ++ [r], checkpoint := some it.id },
     { s with log := s.log ++ [r], checkpoint := some it.id,
              processed_count := s.processed_count + 1 }]

/-- The state after one full loop iteration: the last intermediate state, or
the unchanged state for a skipped item. -/
def stepItem (o : FetchOracle) (it : WorkItem) (s : RunState) : RunState :=
  (itemStates o it s).getLastD s

/-- The main loop (source line 69: `for i in range(start_index,
len(repos_to_crawl))`), expressed over the remaining item list together with
the running index `i` (the per-position oracle `ora i` supplies the API's
answers for position `i`). -/
def runLoop (ora : Nat → FetchOracle) : List WorkItem → Nat → RunState → RunState
  | [], _, s => s
  | it :: rest, i, s => runLoop ora rest (i + 1) (stepItem (ora i) it s)

/-- The items the main loop dispatches (visits), in order. -/
def loopVisited (ora : Nat → FetchOracle) : List WorkItem → Nat → RunState → List WorkItem
  | [], _, _ => []
  | it :: rest, i, s => it :: loopVisited ora rest (i + 1) (stepItem (ora i) it s)

/-- Every intermediate state the main loop passes through, in order. -/
def loopStates (ora : Nat → FetchOracle) : List WorkItem → Nat → RunState → List RunState
  | [], _, _ => []
  | it :: rest, i, s =>
    itemStates (ora i) it s ++ loopStates ora rest (i + 1) (stepItem (ora i) it s)

/-- The resume scan of source lines 54-58: walk the loaded list looking for
the first item whose `总序号` equals the checkpoint value; on a match set
`start_index = i + 1` and stop; otherwise `start_index` stays 0. -/
def scanForId (lastId : Int) : List WorkItem → Nat → Nat
  | [], _ => 0
  | it :: rest, i => if it.id == lastId then i + 1 else scanForId lastId rest (i + 1)

/-- Source lines 49-63: `start_index` is 0 with no checkpoint, else the result
of the resume scan. -/
def computeStart (cp : Option Int) (items : List WorkItem) : Nat :=
  match cp with
  | none => 0
  | some lastId => scanForId lastId items 0

/-- The state at the start of the main loop: the existing output log, the
checkpoint file's value, and `processed_count = 0` (source line 68). -/
def startState (log0 : List ResultRecord) (cp : Option Int) : RunState :=
  { log := log0, checkpoint := cp, processed_count := 0 }

/-- The items a run with checkpoint `cp` dispatches. -/
def dispatched (ora : Nat → FetchOracle) (items : List WorkItem) (cp : Option Int)
    (log0 : List ResultRecord) : List WorkItem :=
  loopVisited ora (items.drop (computeStart cp items)) (computeStart cp items)
    (startState log0 cp)

/-- How a sweep ends (source lines 160-170): either the completion report
runs (and the checkpoint file is removed when the guard at line 168 holds),
or — when the loop body never ran — line 165 reads the never-assigned
per-item variable `repo_id` and the process dies with a `NameError`. -/
inductive RunOutcome where
  | nameErrorCrash (s : RunState)
  | done (s : RunState)
deriving DecidableEq

/-- One whole sweep from the state at source line 65: compute `start_index`,
run the main loop over the remaining items, then the completion section.
Line 165 references `repo_id`, which is only ever assigned inside the loop
body (line 71), so when the loop body never ran the report raises `NameError`;
otherwise the checkpoint file is removed exactly when
`start_index + processed_count >= len(repos_to_crawl)` (line 168). -/
def fullRun (ora : Nat → FetchOracle) (items : List WorkItem)
    (log0 : List ResultRecord) (cp : Option Int) : RunOutcome :=
  let si := computeStart cp items
  let s := runLoop ora (items.drop si) si (startState log0 cp)
  if si < items.length then
    if items.length ≤ si + s.processed_count then
      .done { s with checkpoint := none }
    else
      .done s
  else
    .nameErrorCrash s

/-- The checkpoint file's contents when the sweep ends (crashed or not). -/
def finalCheckpoint : RunOutcome → Option Int
  | .nameErrorCrash s => s.checkpoint
  | .done s => s.checkpoint

/-- Work Source loading, source lines 38-43: one `json.loads` per line
(abstracted as the parameter `p`); a line that fails to parse is skipped
(the inner `except` prints a warning and continues), a parsed line is
appended in order. -/
def loadDataset (p : String → Option WorkItem) : List String → List WorkItem
  | [] => []
  | line :: rest =>
    match p line with
    | some it => it :: loadDataset p rest
    | none => loadDataset p rest

/-- Outcome of the loading section (source lines 35-47): `sys.exit()` on
`FileNotFoundError` (the dataset cannot be read, modelled as `input = none`),
otherwise the loaded list. -/
inductive LoadOutcome where
  | fatalExit
  | loaded (items : List WorkItem)
deriving DecidableEq

/-- Source lines 35-47 as a function of whether the input file was readable
(`some` of its lines) or not (`none`). -/
def loadPhase (p : String → Option WorkItem) (input : Option (List String)) : LoadOutcome :=
  match input with
  | none => .fatalExit
  | some lines => .loaded (loadDataset p lines)

/-- How the whole process ends: the two start-up fatal exits (both are
Python's `sys.exit()` with no argument, hence exit status 0 — source lines 31
and 47), the `NameError` crash (an uncaught exception, exit status 1), or
normal completion (falling off the end of the script, exit status 0). -/
inductive ProgramResult where
  | fatalAuthExit (code : Nat)
  | fatalLoadExit (code : Nat)
  | crashedNameError (s : RunState)
  | completed (s : RunState) (code : Nat)
deriving DecidableEq

/-- The process exit status of each outcome. -/
def exitStatus : ProgramResult → Nat
  | .fatalAuthExit c => c
  | .fatalLoadExit c => c
  | .crashedNameError _ => 1
  | .completed _ c => c

/-- The whole script, source lines 22-170: the start-up authentication check
(lines 24-31, `sys.exit()` on failure), the loading section, then the sweep.
`authOk` models whether `g.get_user().login` succeeds; `input` models the
input file (`none` = `FileNotFoundError`); `cp` models the checkpoint file's
parsed contents at start-up. -/
def runProgram (authOk : Bool) (p : String → Option WorkItem)
    (input : Option (List String)) (cp : Option Int) (ora : Nat → FetchOracle)
    (log0 : List ResultRecord) : ProgramResult :=
  if authOk then
    match input with
    | none => .fatalLoadExit 0
    | some lines =>
      match fullRun ora (loadDataset p lines) log0 cp with
      | .done s => .completed s 0
      | .nameErrorCrash s => .crashedNameError s
  else
    .fatalAuthExit 0

/-- The claim C5 invariant: any id the checkpoint holds that belongs to a
resolvable item of the work source already has a record in the output log. -/
def CheckpointRecorded (items : List WorkItem) (s : RunState) : Prop :=
  ∀ v it, s.checkpoint = some v → it ∈ items → it.id = v →
    (resolveRef it.url).isOk = true → ∃ r ∈ s.log, r.id = v

/-- An oracle on which all four fetch steps succeed. -/
def oraAllOk : FetchOracle :=
  { summary := .ok { stargazers_count := 0, forks_count := 0, open_issues_count := 0
                     created_at := none, pushed_at := none }
    contributors := .ok [], recent := .ok 0, total := .ok 0 }

/-- An oracle whose contributor-list step fails with a structured API error
after the summary step succeeded. -/
def oraContribFail : FetchOracle :=
  { summary := .ok { stargazers_count := 10, forks_count := 3, open_issues_count := 2
                     created_at := some "2020-01-01T00:00:00+00:00"
                     pushed_at := some "2024-05-01T00:00:00+00:00" }
    contributors := .error (.githubException 403 "rate limit exceeded")
    recent := .ok 0, total := .ok 0 }

/-- A concrete line parser for witnesses: exactly the line `"one"` parses. -/
def pW : String → Option WorkItem :=
  fun l => if l = "one" then some { id := 1, url := "https://github.com/a/b" } else none

/-- The two-item dataset of the spec's checkpoint-clearing scenario:
`[{"总序号":1,"github链接":"https://github.com/acme/widget"},
{"总序号":2,"github链接":"not-a-url"}]`. -/
def itemsScenario : List WorkItem :=
  [{ id := 1, url := "https://github.com/acme/widget" }, { id := 2, url := "not-a-url" }]

theorem loopVisited_eq (ora : Nat → FetchOracle) :
    ∀ (l : List WorkItem) (i : Nat) (s : RunState), loopVisited ora l i s = l := by
  intro l
  induction l with
  | nil => intro i s; rfl
  | cons it rest ih => intro i s; simp [loopVisited, ih]

theorem scanForId_eq_of_first (v : Int) :
    ∀ (l : List WorkItem) (i j : Nat) (hj : j < l.length),
      (l.get ⟨j, hj⟩).id = v →
      (∀ k (hk : k < j), (l.get ⟨k, Nat.lt_trans hk hj⟩).id ≠ v) →
      scanForId v l i = i + j + 1 := by
  intro l
  induction l with
  | nil => intro i j hj _ _; exact absurd hj (by simp)
  | cons it rest ih =>
    intro i j hj hget hfirst
    cases j with
    | zero =>
      have : (it.id == v) = true := by
        simpa using hget
      simp [scanForId, this]
    | succ j' =>
      have hhead : it.id ≠ v := by simpa using hfirst 0 (Nat.succ_pos j')
      have hne : (it.id == v) = false := by simpa using hhead
      have hrec := ih (i + 1) j' (Nat.lt_of_succ_lt_succ hj)
        (by simpa using hget)
        (fun k hk => by simpa using hfirst (k + 1) (Nat.succ_lt_succ hk))
      simp [scanForId, hne, hrec]
      omega

theorem scanForId_eq_zero (v : Int) :
    ∀ (l : List WorkItem) (i : Nat), (∀ it ∈ l, it.id ≠ v) → scanForId v l i = 0 := by
  intro l
  induction l with
  | nil => intro i _; rfl
  | cons it rest ih =>
    intro i h
    have hne : (it.id == v) = false := by
      simpa using h it (List.mem_cons_self it rest)
    simp [scanForId, hne]
    exact ih (i + 1) (fun x hx => h x (List.mem_cons_of_mem it hx))

/-- C1. Resume correctness: for every dataset and every checkpoint value
present at start-up, if the checkpoint value equals the id of some WorkItem in
the loaded list, the run processes exactly the items strictly after the first
such item (the resume offset is the index following it, and nothing at or
before that index is dispatched again); if the checkpoint value matches no
item, the run restarts from offset 0 and dispatches every item. -/
theorem c1_resume_correctness (ora : Nat → FetchOracle) (items : List WorkItem)
    (log0 : List ResultRecord) (v : Int) :
    (∀ j (hj : j < items.length),
        (items.get ⟨j, hj⟩).id = v →
        (∀ k (hk : k < j), (items.get ⟨k, Nat.lt_trans hk hj⟩).id ≠ v) →
        computeStart (some v) items = j + 1 ∧
        dispatched ora items (some v) log0 = items.drop (j + 1)) ∧
    ((∀ it ∈ items, it.id ≠ v) →
        computeStart (some v) items = 0 ∧
        dispatched ora items (some v) log0 = items) := by
  constructor
  · intro j hj hget hfirst
    have h1 : computeStart (some v) items = j + 1 := by
      simpa [computeStart] using scanForId_eq_of_first v items 0 j hj hget hfirst
    exact ⟨h1, by simp [dispatched, loopVisited_eq, h1]⟩
  · intro h
    have h1 : computeStart (some v) items = 0 := by
      simpa [computeStart] using scanForId_eq_zero v items 0 h
    exact ⟨h1, by simp [dispatched, loopVisited_eq, h1]⟩

theorem c1_resume_correctness_witness :
    computeStart (some 5)
      [{ id := 5, url := "https://github.com/a/b" }, { id := 9, url := "https://github.com/c/d" }] = 1 ∧
    dispatched (fun _ => oraAllOk)
      [{ id := 5, url := "https://github.com/a/b" }, { id := 9, url := "https://github.com/c/d" }]
      (some 5) [] = [{ id := 9, url := "https://github.com/c/d" }] :=
  (c1_resume_correctness (fun _ => oraAllOk)
      [{ id := 5, url := "https://github.com/a/b" }, { id := 9, url := "https://github.com/c/d" }]
      [] 5).1 0 (by decide) rfl (fun k hk => absurd hk (Nat.not_lt_zero k))

/-- C2 counterexample: processing the unresolvable item `{总序号: 7,
github链接: "not-a-url"}` from a fresh state leaves the checkpoint untouched
(`none`) — it is NOT saved with the skipped item's id 7, refuting the claim
that "the checkpoint is still saved with that item's id". -/
theorem c2_checkpoint_advance_counterexample :
    (stepItem oraAllOk { id := 7, url := "not-a-url" } (startState [] none)).checkpoint ≠
      some 7 := by decide

/-- C2 as amended: for every WorkItem whose reference fails resolution, the
item is skipped with no ResultRecord appended and no remote call made, and the
checkpoint is NOT saved with that item's id — the whole run state (output log,
checkpoint, processed count) is left exactly as it was (the `continue` at
source lines 79/84 precedes the append, the checkpoint write, and the counter
increment). -/
theorem c2_skip_leaves_state (o : FetchOracle) (it : WorkItem) (s : RunState)
    (e : ResolveError) (h : resolveRef it.url = .error e) :
    stepItem o it s = s ∧ itemTrace o it = [] := by
  constructor
  · simp [stepItem, itemStates, h]
  · simp [itemTrace, h]

theorem c2_skip_leaves_state_witness :
    resolveRef "not-a-url" = .error .unsupportedReferenceKind ∧
    stepItem oraAllOk { id := 7, url := "not-a-url" } (startState [] none) =
      startState [] none ∧
    itemTrace oraAllOk { id := 7, url := "not-a-url" } = [] :=
  ⟨by decide,
   (c2_skip_leaves_state oraAllOk { id := 7, url := "not-a-url" } (startState [] none)
      ResolveError.unsupportedReferenceKind (by decide)).1,
   (c2_skip_leaves_state oraAllOk { id := 7, url := "not-a-url" } (startState [] none)
      ResolveError.unsupportedReferenceKind (by decide)).2⟩

/-- C3 failing run: on the spec's own scenario dataset
`[{总序号:1, github链接:"https://github.com/acme/widget"},
{总序号:2, github链接:"not-a-url"}]` with all remote calls succeeding and no
prior checkpoint, the sweep iterates to the end without interruption, yet
the checkpoint file still exists afterwards and holds 1: the skipped item 2
never increments `processed_count`, so the clearing guard
`start_index + processed_count >= len(repos_to_crawl)` (source line 168)
compares 0 + 1 < 2 and `os.remove(STATE_FILE)` is never reached. -/
theorem c3_checkpoint_left_behind :
    finalCheckpoint (fullRun (fun _ => oraAllOk) itemsScenario [] none) = some 1 ∧
    fullRun (fun _ => oraAllOk) itemsScenario [] none =
      .done (runLoop (fun _ => oraAllOk) itemsScenario 0 (startState [] none)) := by
  constructor
  · decide
  · decide

theorem fetchData_id (o : FetchOracle) (r : ResultRecord) :
    ((fetchData o r).1).id = r.id := by
  obtain ⟨os, oc, orc, ot⟩ := o
  cases os <;> cases oc <;> cases orc <;> cases ot <;> rfl

/-- C4. No silent loss: for every resolvable WorkItem whose metadata fetch
fails at some step, exactly one ResultRecord is still appended to the log; the
record's `error` field is exactly the caught failure class-and-message string
of the first failing step (hence non-null whenever a step failed); and the
record is, case by case on the first failing step, the initial record with
precisely the steps before the failure applied (fields gathered before the
failure keep their fetched values) and the error recorded (all later fields
stay at their initialised defaults: `None`, and `[]` for the contributor
list). -/
theorem c4_no_silent_loss (o : FetchOracle) (it : WorkItem) (s : RunState) (ow nm : String)
    (hres : resolveRef it.url = Except.ok (ow, nm)) :
    ((stepItem o it s).log = s.log ++ [recordFor o it ow nm]) ∧
    ((recordFor o it ow nm).error = (firstFetchError o).map errorMessage) ∧
    ((firstFetchError o).isSome = true → (recordFor o it ow nm).error ≠ none) ∧
    (∀ e, o.summary = .error e →
        recordFor o it ow nm = setError (initRecord it.id it.url ow nm) e) ∧
    (∀ sm e, o.summary = .ok sm → o.contributors = .error e →
        recordFor o it ow nm = setError (applySummary (initRecord it.id it.url ow nm) sm) e) ∧
    (∀ sm cs e, o.summary = .ok sm → o.contributors = .ok cs → o.recent = .error e →
        recordFor o it ow nm =
          setError (applyContributors (applySummary (initRecord it.id it.url ow nm) sm) cs) e) ∧
    (∀ sm cs n e, o.summary = .ok sm → o.contributors = .ok cs → o.recent = .ok n →
        o.total = .error e →
        recordFor o it ow nm =
          setError (applyRecent
            (applyContributors (applySummary (initRecord it.id it.url ow nm) sm) cs) n) e) := by
  refine ⟨?_, ?_, ?_, ?_, ?_, ?_, ?_⟩
  · simp [stepItem, itemStates, hres]
  · obtain ⟨os, oc, orc, ot⟩ := o
    cases os <;> cases oc <;> cases orc <;> cases ot <;> rfl
  · obtain ⟨os, oc, orc, ot⟩ := o
    cases os <;> cases oc <;> cases orc <;> cases ot <;>
      simp [recordFor, fetchData, firstFetchError, setError]
  · intro e he; simp [recordFor, fetchData, he]
  · intro sm e h1 h2; simp [recordFor, fetchData, h1, h2]
  · intro sm cs e h1 h2 h3; simp [recordFor, fetchData, h1, h2, h3]
  · intro sm cs n e h1 h2 h3 h4; simp [recordFor, fetchData, h1, h2, h3, h4]

theorem c4_no_silent_loss_witness :
    resolveRef "https://github.com/acme/widget" = Except.ok ("acme", "widget") ∧
    (stepItem oraContribFail { id := 1, url := "https://github.com/acme/widget" }
        (startState [] none)).log =
      [] ++ [recordFor oraContribFail { id := 1, url := "https://github.com/acme/widget" }
        "acme" "widget"] ∧
    (recordFor oraContribFail { id := 1, url := "https://github.com/acme/widget" }
        "acme" "widget").error = some "GitHub API 错误: 403 - rate limit exceeded" :=
  ⟨by decide,
   (c4_no_silent_loss oraContribFail { id := 1, url := "https://github.com/acme/widget" }
      (startState [] none) "acme" "widget" (by decide)).1,
   ((c4_no_silent_loss oraContribFail { id := 1, url := "https://github.com/acme/widget" }
      (startState [] none) "acme" "widget" (by decide)).2.1).trans (by decide)⟩

theorem checkpointRecorded_itemStates (items : List WorkItem) (o : FetchOracle)
    (it : WorkItem) (s s' : RunState) (hs : CheckpointRecorded items s)
    (hmem : s' ∈ itemStates o it s) : CheckpointRecorded items s' := by
  unfold itemStates at hmem
  cases hres : resolveRef it.url with
  | error e => rw [hres] at hmem; simp at hmem
  | ok p =>
    obtain ⟨ow, nm⟩ := p
    rw [hres] at hmem
    simp only [List.mem_cons, List.not_mem_nil, or_false] at hmem
    have hid : (recordFor o it ow nm).id = it.id := fetchData_id o _
    rcases hmem with rfl | rfl | rfl
    · intro v x hcp hx hxid hxok
      obtain ⟨r, hr, hrid⟩ := hs v x hcp hx hxid hxok
      exact ⟨r, List.mem_append_left _ hr, hrid⟩
    · intro v x hcp hx hxid hxok
      have hv : it.id = v := by simpa using hcp
      exact ⟨recordFor o it ow nm,
        List.mem_append_right _ (List.mem_singleton.mpr rfl), hid.trans hv⟩
    · intro v x hcp hx hxid hxok
      have hv : it.id = v := by simpa using hcp
      exact ⟨recordFor o it ow nm,
        List.mem_append_right _ (List.mem_singleton.mpr rfl), hid.trans hv⟩

theorem checkpointRecorded_stepItem (items : List WorkItem) (o : FetchOracle)
    (it : WorkItem) (s : RunState) (hs : CheckpointRecorded items s) :
    CheckpointRecorded items (stepItem o it s) := by
  cases hres : resolveRef it.url with
  | error e =>
    have h : stepItem o it s = s := by simp [stepItem, itemStates, hres]
    rw [h]
    exact hs
  | ok p =>
    obtain ⟨ow, nm⟩ := p
    apply checkpointRecorded_itemStates items o it s _ hs
    simp [stepItem, itemStates, hres]

theorem checkpointRecorded_loopStates (items : List WorkItem) (ora : Nat → FetchOracle) :
    ∀ (l : List WorkItem) (i : Nat) (s : RunState), CheckpointRecorded items s →
      ∀ s' ∈ loopStates ora l i s, CheckpointRecorded items s' := by
  intro l
  induction l with
  | nil => intro i s _ s' hmem; simp [loopStates] at hmem
  | cons it rest ih =>
    intro i s hs s' hmem
    rw [loopStates] at hmem
    rcases List.mem_append.mp hmem with h | h
    · exact checkpointRecorded_itemStates items (ora i) it s s' hs h
    · exact ih (i + 1) _ (checkpointRecorded_stepItem items (ora i) it s hs) s' h

/-- C5. Append-before-checkpoint: for every processed (resolvable) item, the
loop iteration's state changes happen in exactly this order — first the
ResultRecord is appended to the output log, then the checkpoint is overwritten
with that item's id, then the counter advances — and the whole iteration
(including the checkpoint save) completes before the next item's states begin
(`loopStates` concatenates each item's states before the next item's).
Consequently, at every intermediate point of the run, any id held by the
checkpoint that belongs to a resolvable item already has a record with that id
in the output log, provided the artifacts at loop entry already satisfied that
invariant (trivially true of a fresh start with no checkpoint). -/
theorem c5_append_before_checkpoint (ora : Nat → FetchOracle) (items l : List WorkItem)
    (i : Nat) (s0 : RunState) (h0 : CheckpointRecorded items s0) :
    (∀ (o : FetchOracle) (it : WorkItem) (s : RunState) (ow nm : String),
        resolveRef it.url = Except.ok (ow, nm) →
        itemStates o it s =
          [{ s with log := s.log ++ [recordFor o it ow nm] },
           { s with log := s.log ++ [recordFor o it ow nm], checkpoint := some it.id },
           { s with log := s.log ++ [recordFor o it ow nm], checkpoint := some it.id,
                    processed_count := s.processed_count + 1 }]) ∧
    (∀ s' ∈ loopStates ora l i s0, CheckpointRecorded items s') := by
  constructor
  · intro o it s ow nm hres
    simp [itemStates, hres]
  · exact checkpointRecorded_loopStates items ora l i s0 h0

theorem c5_append_before_checkpoint_witness :
    ∃ r ∈ (stepItem oraAllOk { id := 1, url := "https://github.com/acme/widget" }
      (startState [] none)).log, r.id = 1 :=
  (c5_append_before_checkpoint (fun _ => oraAllOk)
      [{ id := 1, url := "https://github.com/acme/widget" }]
      [{ id := 1, url := "https://github.com/acme/widget" }] 0 (startState [] none)
      (fun _ _ hcp => nomatch hcp)).2
    (stepItem oraAllOk { id := 1, url := "https://github.com/acme/widget" } (startState [] none))
    (by decide) 1 { id := 1, url := "https://github.com/acme/widget" }
    (by decide) (by decide) rfl (by decide)

/-- C6. For every reference string matching the expected host, resolution
fails — and fails with `MalformedReference` specifically, never the wrong-host
error — exactly when the split path segments number fewer than two (the path
cannot supply both an owner and a name); otherwise the owner/name pair is
derived deterministically from the reference: `owner` is the second-to-last
segment and `name` the last. -/
theorem c6_malformed_resolution (url : String) (h : hostMatches url = true) :
    (resolveRef url = .error .malformedReference ↔ (urlParts url).length < 2) ∧
    resolveRef url ≠ .error .unsupportedReferenceKind ∧
    (∀ nm ow rest, (urlParts url).reverse = nm :: ow :: rest →
        resolveRef url = .ok (String.mk ow, String.mk nm)) := by
  have hlen : (urlParts url).length = (urlParts url).reverse.length :=
    (List.length_reverse _).symm
  rcases hrev : (urlParts url).reverse with _ | ⟨nm, _ | ⟨ow, rest⟩⟩
  · refine ⟨?_, ?_, ?_⟩
    · simp [resolveRef, h, hrev, hlen]
    · simp [resolveRef, h, hrev]
    · intro nm ow rest h'
      exact absurd h' (by simp)
  · refine ⟨?_, ?_, ?_⟩
    · simp [resolveRef, h, hrev, hlen]
    · simp [resolveRef, h, hrev]
    · intro nm' ow rest h'
      exact absurd h' (by simp)
  · refine ⟨?_, ?_, ?_⟩
    · rw [hlen, hrev]
      simp only [resolveRef, h, if_true, hrev, List.length_cons]
      constructor
      · intro hcontra
        exact absurd hcontra (by simp)
      · intro hcontra
        omega
    · simp [resolveRef, h, hrev]
    · intro nm' ow' rest' h'
      simp only [List.cons.injEq] at h'
      obtain ⟨rfl, rfl, -⟩ := h'
      simp [resolveRef, h, hrev]

theorem c6_malformed_resolution_witness :
    hostMatches "github.com" = true ∧
    resolveRef "github.com" = .error .malformedReference :=
  ⟨by decide, ((c6_malformed_resolution "github.com" (by decide)).1).mpr (by decide)⟩

/-- C7. Metadata fetching for a resolved target performs its remote calls in
the fixed order summary → contributors → recent-commit count → total-commit
count (the calls made are always an initial segment of that order), with a
pacing pause between any two consecutive remote calls, and a failure at any
step prevents every later step's call from being attempted; the call/pause
trace does not depend on the record being filled. -/
theorem c7_fetch_order (o : FetchOracle) :
    (∀ r : ResultRecord, (fetchData o r).2 = fetchTrace o) ∧
    ((fetchTrace o).filter isCall =
        [FetchEvent.callSummary, FetchEvent.callContributors, FetchEvent.callRecentCommits,
          FetchEvent.callTotalCommits].take ((fetchTrace o).filter isCall).length ∧
      ((fetchTrace o).filter isCall).length ≤ 4) ∧
    List.Chain' (fun a b => isCall a = false ∨ isCall b = false) (fetchTrace o) ∧
    (o.summary.isOk = false → fetchTrace o = [FetchEvent.callSummary]) ∧
    (o.contributors.isOk = false →
      FetchEvent.callRecentCommits ∉ fetchTrace o ∧
        FetchEvent.callTotalCommits ∉ fetchTrace o) ∧
    (o.recent.isOk = false → FetchEvent.callTotalCommits ∉ fetchTrace o) := by
  obtain ⟨os, oc, orc, ot⟩ := o
  cases os <;> cases oc <;> cases orc <;> cases ot <;>
    refine ⟨fun r => rfl, ⟨?_, ?_⟩, ?_, ?_, ?_, ?_⟩ <;>
    simp [fetchTrace, fetchData, isCall, List.chain'_cons, Except.isOk, Except.toBool]

theorem c7_fetch_order_witness :
    Except.isOk oraContribFail.contributors = false ∧
    FetchEvent.callRecentCommits ∉ fetchTrace oraContribFail ∧
    FetchEvent.callTotalCommits ∉ fetchTrace oraContribFail :=
  ⟨by decide,
   ((c7_fetch_order oraContribFail).2.2.2.2.1 (by decide)).1,
   ((c7_fetch_order oraContribFail).2.2.2.2.1 (by decide)).2⟩

theorem loadDataset_eq_filterMap (p : String → Option WorkItem) :
    ∀ lines : List String, loadDataset p lines = lines.filterMap p := by
  intro lines
  induction lines with
  | nil => rfl
  | cons line rest ih =>
    cases hp : p line <;> simp [loadDataset, hp, ih]

/-- C8. Work Source loading: for every input dataset, each line that fails to
parse is skipped without aborting the load, every parseable line becomes a
WorkItem, in input order (the loaded list is exactly the in-order filter-map
of the parser over the lines), and loading fails fatally — before any item is
processed — exactly when the dataset itself cannot be read. -/
theorem c8_work_source_loading (p : String → Option WorkItem)
    (input : Option (List String)) :
    (loadPhase p input = .fatalExit ↔ input = none) ∧
    (∀ lines, input = some lines → loadPhase p input = .loaded (lines.filterMap p)) := by
  constructor
  · cases input <;> simp [loadPhase]
  · rintro lines rfl
    simp [loadPhase, loadDataset_eq_filterMap]

theorem c8_work_source_loading_witness :
    (some ["one", "not json"] : Option (List String)) = some ["one", "not json"] ∧
    loadPhase pW (some ["one", "not json"]) =
      .loaded [{ id := 1, url := "https://github.com/a/b" }] :=
  ⟨rfl, (c8_work_source_loading pW (some ["one", "not json"])).2 ["one", "not json"] rfl⟩

/-- C9. If the Work Source is empty after loading, or the computed resume
offset is at or past the end of the list so that the main loop body never
runs, the completion report (source line 165) references the per-item variable
`repo_id` that was never assigned and the process crashes with a `NameError`
instead of completing cleanly: the run ends in the crash outcome with the
checkpoint exactly as it started (never cleared). -/
theorem c9_empty_loop_name_error (ora : Nat → FetchOracle) (items : List WorkItem)
    (log0 : List ResultRecord) (cp : Option Int)
    (h : items.length ≤ computeStart cp items) :
    fullRun ora items log0 cp = .nameErrorCrash (startState log0 cp) ∧
    finalCheckpoint (fullRun ora items log0 cp) = cp := by
  have hdrop : items.drop (computeStart cp items) = [] := List.drop_eq_nil_of_le h
  have h2 : ¬ computeStart cp items < items.length := Nat.not_lt.mpr h
  constructor
  · simp [fullRun, hdrop, runLoop, h2]
  · simp [fullRun, hdrop, runLoop, h2, finalCheckpoint, startState]

theorem c9_empty_loop_name_error_witness :
    ([{ id := 3, url := "https://github.com/x/y" }] : List WorkItem).length ≤
      computeStart (some 3) [{ id := 3, url := "https://github.com/x/y" }] ∧
    fullRun (fun _ => oraAllOk) [{ id := 3, url := "https://github.com/x/y" }] [] (some 3) =
      .nameErrorCrash (startState [] (some 3)) :=
  ⟨by decide,
   (c9_empty_loop_name_error (fun _ => oraAllOk)
      [{ id := 3, url := "https://github.com/x/y" }] [] (some 3) (by decide)).1⟩

/-- C10 counterexample: a run aborted by the fatal authentication failure
(the `sys.exit()` at source line 31 carries no argument) terminates with exit
status 0 — the success status — not a failing status, refuting the claim that
"a run aborted by a fatal class exits with a failing status". -/
theorem c10_failing_status_counterexample :
    exitStatus (runProgram false pW (some []) none (fun _ => oraAllOk) []) = 0 := rfl

/-- C10 as amended: fatal failures stop the process before any item is
processed — an unauthenticable credential makes the program exit immediately
from the start-up check, and an unreadable dataset makes it exit immediately
from the loading section, in both cases before the sweep runs — but the exit
status is 0 in those fatal cases too (`sys.exit()` with no argument), the same
status a completed sweep exits with, so the exit status does not distinguish
fatal aborts from success. -/
theorem c10_fatal_stop_exit_zero (p : String → Option WorkItem)
    (input : Option (List String)) (cp : Option Int) (ora : Nat → FetchOracle)
    (log0 : List ResultRecord) :
    (runProgram false p input cp ora log0 = .fatalAuthExit 0 ∧
      exitStatus (runProgram false p input cp ora log0) = 0) ∧
    (input = none → runProgram true p input cp ora log0 = .fatalLoadExit 0 ∧
      exitStatus (runProgram true p input cp ora log0) = 0) ∧
    (∀ s c, runProgram true p input cp ora log0 = .completed s c → c = 0) := by
  refine ⟨⟨rfl, rfl⟩, ?_, ?_⟩
  · rintro rfl
    exact ⟨rfl, rfl⟩
  · intro s c h
    cases input with
    | none => simp [runProgram] at h
    | some lines =>
      cases hfr : fullRun ora (loadDataset p lines) log0 cp with
      | done s2 =>
        simp [runProgram, hfr] at h
        exact h.2.symm
      | nameErrorCrash s2 =>
        simp [runProgram, hfr] at h

theorem c10_fatal_stop_exit_zero_witness :
    (none : Option (List String)) = none ∧
    runProgram true pW none none (fun _ => oraAllOk) [] = .fatalLoadExit 0 :=
  ⟨rfl, ((c10_fatal_stop_exit_zero pW none none (fun _ => oraAllOk) []).2.1 rfl).1⟩
